import Mathlib

/-!
Shallow embedding of `src/webserver/src/canvas/socket_handler.rs`:
the per-connection WebSocket event multiplexer
`start_canvas_websocket_connection` and its helper
`process_user_socket_msg`.

The loop body is embedded as a pure step function `step` over the
connection state (the `last_heartbeat` instant).  One loop iteration is
driven by one `StepInput`: the event the `select` resolved to, the value
`Instant::now()` would return during that iteration, and whether an
outbound transport write attempted in that iteration succeeds.  Side
effects (transport writes, registrar calls, `println!` logging) are
reified as a list of `Action`s; a Rust panic (`unwrap()` on a failed
send, the `unreachable!` arm) is reified as the `StepResult.panicked`
constructor, which aborts the task without running the shutdown code.

Time is modelled in seconds as `Nat`; `Instant::duration_since` is Nat
subtraction (which saturates at zero, as `duration_since` does).
Canvas ids and user ids are modelled as `String`.
-/

namespace CanvasSocket

/-- How often heartbeat pings are sent (seconds). -/
def HEARTBEAT_INTERVAL : Nat := 5

/-- How long before lack of client response causes a timeout (seconds). -/
def CLIENT_TIMEOUT : Nat := 10

/-- An optional close code / description pair (`actix_ws::CloseReason`). -/
structure CloseReason where
  code : Nat
  description : Option String
deriving DecidableEq, Repr

/-- Decoded client frames (`actix_ws::AggregatedMessage`).
Byte payloads are lists of byte values. -/
inductive AggregatedMessage where
  | Ping (bytes : List Nat)
  | Pong (bytes : List Nat)
  | Text (text : String)
  | Binary (bin : List Nat)
  | Close (reason : Option CloseReason)
deriving DecidableEq, Repr

/-- The event one iteration of the nested `select` resolves to:
a client frame (`Some(Ok(msg))`), a client stream error (`Some(Err(e))`),
the end of the client stream (`None`), a fan-in chat message
(`Some(chat_msg)` on `message_rx`), the fan-in channel reporting closed
(`None` on `message_rx`), or a heartbeat interval tick. -/
inductive InEvent where
  | clientFrame (msg : AggregatedMessage)
  | clientError (err : String)
  | streamEnd
  | chanMsg (m : String)
  | chanClosed
  | timerTick
deriving DecidableEq, Repr

/-- The mutable connection state: `last_heartbeat: Instant`. -/
structure ConnState where
  lastHeartbeat : Nat
deriving DecidableEq, Repr

/-- Observable side effects of the handler: outbound transport writes
(`pong`, `ping`, `text`, `close`), registrar calls (`connect`,
`disconnect`, `broadcast_event`), and `println!` log lines. -/
inductive Action where
  | connect (canvas user username : String) (role : String)
  | disconnect (canvas user : String)
  | broadcast (canvas user : String) (msg : String)
  | pong (payload : List Nat)
  | ping (payload : List Nat)
  | text (s : String)
  | closeConn (reason : Option CloseReason)
  | log (s : String)
deriving DecidableEq, Repr

/-- Which `break` arm of the loop fired. -/
inductive TerminalCond where
  | clientClose
  | streamError
  | streamEnded
  | livenessTimeout
deriving DecidableEq, Repr

/-- Result of one loop iteration: continue with new state, `break` with
a close reason, or panic (aborting the task). The action list records
the side effects of the iteration, attempted writes included. -/
inductive StepResult where
  | cont (st : ConnState) (out : List Action)
  | exit (cond : TerminalCond) (reason : Option CloseReason) (st : ConnState) (out : List Action)
  | panicked (msg : String) (out : List Action)
deriving DecidableEq, Repr

/-- One driven loop iteration: the event, the current instant, and
whether an outbound write attempted during the iteration succeeds. -/
structure StepInput where
  now : Nat
  event : InEvent
  sendOk : Bool
deriving DecidableEq, Repr

/-- `process_user_socket_msg`: trim leading/trailing whitespace, log,
and call `chat_server.broadcast_event(canvas_id, user_id, msg)`. -/
def process_user_socket_msg (canvas_id user_id : String) (text : String) : List Action :=
  let msg := text.trim
  [Action.log ("Received message: " ++ user_id ++ " in " ++ canvas_id ++ ": " ++ msg),
   Action.broadcast canvas_id user_id msg]

/-- One iteration of the multiplexer loop in
`start_canvas_websocket_connection`, by the arms of the nested
`select` match:
* `Ping(bytes)`: set `last_heartbeat = Instant::now()`, then
  `session.pong(&bytes).await.unwrap()` — a failed pong send panics the
  task.
* `Pong(_)`: set `last_heartbeat = Instant::now()`.
* `Text(text)`: `process_user_socket_msg` (trim, log, broadcast).
* `Binary(_)`: log `unexpected binary message`.
* `Close(reason)`: `break reason`.
* stream error: log the error, `break None`.
* stream ended: `break None`.
* fan-in message: `session.text(chat_msg).await.unwrap()` — a failed
  text send panics the task.
* fan-in channel closed: `unreachable!(...)` — panics the task.
* timer tick: if `Instant::now().duration_since(last_heartbeat) >
  CLIENT_TIMEOUT`, log and `break None`; otherwise
  `let _ = session.ping(b"")` (failure ignored) and continue. -/
def step (canvas_id user_id : String) (st : ConnState) (inp : StepInput) : StepResult :=
  match inp.event with
  | InEvent.clientFrame msg =>
    match msg with
    | AggregatedMessage.Ping bytes =>
        if inp.sendOk then
          StepResult.cont { lastHeartbeat := inp.now } [Action.pong bytes]
        else
          StepResult.panicked "called Result::unwrap() on an Err value" [Action.pong bytes]
    | AggregatedMessage.Pong _ =>
        StepResult.cont { lastHeartbeat := inp.now } []
    | AggregatedMessage.Text text =>
        StepResult.cont st (process_user_socket_msg canvas_id user_id text)
    | AggregatedMessage.Binary _ =>
        StepResult.cont st [Action.log "unexpected binary message"]
    | AggregatedMessage.Close reason =>
        StepResult.exit TerminalCond.clientClose reason st []
  | InEvent.clientError err =>
      StepResult.exit TerminalCond.streamError none st [Action.log err]
  | InEvent.streamEnd =>
      StepResult.exit TerminalCond.streamEnded none st []
  | InEvent.chanMsg m =>
      if inp.sendOk then
        StepResult.cont st [Action.text m]
      else
        StepResult.panicked "called Result::unwrap() on an Err value" [Action.text m]
  | InEvent.chanClosed =>
      StepResult.panicked
        "all connection message senders were dropped; chat server may have panicked" []
  | InEvent.timerTick =>
      if CLIENT_TIMEOUT < inp.now - st.lastHeartbeat then
        StepResult.exit TerminalCond.livenessTimeout none st
          [Action.log ("User " ++ user_id ++ " in " ++ canvas_id ++ " timed out")]
      else
        StepResult.cont st [Action.ping []]

/-- Result of running the loop on a finite trace of inputs:
still waiting in the loop when the trace is exhausted, exited the loop
with a close reason, or panicked. -/
inductive RunResult where
  | running (st : ConnState) (out : List Action)
  | finished (cond : TerminalCond) (reason : Option CloseReason) (out : List Action)
  | panicked (msg : String) (out : List Action)
deriving DecidableEq, Repr

/-- Prepend the side effects of an iteration to those of the rest of
the run. -/
def withOut (out : List Action) : RunResult → RunResult
  | RunResult.running st o => RunResult.running st (out ++ o)
  | RunResult.finished c r o => RunResult.finished c r (out ++ o)
  | RunResult.panicked m o => RunResult.panicked m (out ++ o)

/-- The `loop` of `start_canvas_websocket_connection`, run over a
finite trace of iteration inputs. Once an iteration breaks or panics,
no further inputs are consumed. -/
def runLoop (canvas_id user_id : String) (st : ConnState) : List StepInput → RunResult
  | [] => RunResult.running st []
  | inp :: rest =>
    match step canvas_id user_id st inp with
    | StepResult.cont st' out => withOut out (runLoop canvas_id user_id st' rest)
    | StepResult.exit c r _ out => RunResult.finished c r out
    | StepResult.panicked m out => RunResult.panicked m out

/-- The whole of `start_canvas_websocket_connection`:
`chat_server.connect(...)`, initial `last_heartbeat = Instant::now()`
(modelled by `t0`), the loop, and — only when the loop exits by `break`
— `chat_server.disconnect(canvas_id, user.id)` followed by
`let _ = session.close(close_reason)`. A panic aborts the task before
the shutdown code runs. -/
def start_canvas_websocket_connection
    (canvas_id user_id username role : String) (t0 : Nat)
    (inputs : List StepInput) : RunResult :=
  match runLoop canvas_id user_id { lastHeartbeat := t0 } inputs with
  | RunResult.running st out =>
      RunResult.running st (Action.connect canvas_id user_id username role :: out)
  | RunResult.finished c r out =>
      RunResult.finished c r
        (Action.connect canvas_id user_id username role ::
          (out ++ [Action.disconnect canvas_id user_id, Action.closeConn r]))
  | RunResult.panicked m out =>
      RunResult.panicked m (Action.connect canvas_id user_id username role :: out)

/-- The side effects of one iteration. -/
def StepResult.out : StepResult → List Action
  | StepResult.cont _ o => o
  | StepResult.exit _ _ _ o => o
  | StepResult.panicked _ o => o

/-- The side effects of a whole run. -/
def RunResult.out : RunResult → List Action
  | RunResult.running _ o => o
  | RunResult.finished _ _ o => o
  | RunResult.panicked _ o => o

/-- Is an action a `Registrar.disconnect` call? -/
def Action.isDisconnect : Action → Bool
  | Action.disconnect _ _ => true
  | _ => false

/-- Is an action a `Registrar.broadcast` call? -/
def Action.isBroadcast : Action → Bool
  | Action.broadcast _ _ _ => true
  | _ => false

/-- Number of `Registrar.disconnect` calls in an action list. -/
def disconnectCount (out : List Action) : Nat :=
  out.countP Action.isDisconnect

/-- Did the run terminate via the `LivenessTimeout` break? -/
def RunResult.timedOut : RunResult → Bool
  | RunResult.finished TerminalCond.livenessTimeout _ _ => true
  | _ => false

/-- Did the step continue the loop? -/
def StepResult.isCont : StepResult → Bool
  | StepResult.cont _ _ => true
  | _ => false

/-- Is the event a liveness-confirming frame (inbound client Ping or
Pong)? -/
def eventLive : InEvent → Bool
  | InEvent.clientFrame (AggregatedMessage.Ping _) => true
  | InEvent.clientFrame (AggregatedMessage.Pong _) => true
  | _ => false

/-- The trace keeps liveness confirmations less than `T` apart:
tracking `t` as the instant of the most recent liveness-confirming
frame (initially the connection start), every liveness-confirming frame
and every timer tick occurs strictly less than `T` after `t`. -/
def liveSpaced (T : Nat) : Nat → List StepInput → Bool
  | _, [] => true
  | t, inp :: rest =>
    match inp.event with
    | InEvent.clientFrame (AggregatedMessage.Ping _) =>
        decide (inp.now - t < T) && liveSpaced T inp.now rest
    | InEvent.clientFrame (AggregatedMessage.Pong _) =>
        decide (inp.now - t < T) && liveSpaced T inp.now rest
    | InEvent.timerTick =>
        decide (inp.now - t < T) && liveSpaced T t rest
    | _ => liveSpaced T t rest

/-- Timestamps along the trace are non-decreasing and start at or
after `t` (`Instant::now()` is monotone). -/
def timesMono : Nat → List StepInput → Bool
  | _, [] => true
  | t, inp :: rest => decide (t ≤ inp.now) && timesMono inp.now rest

/-! ## Helper lemmas -/

lemma withOut_timedOut (out : List Action) (r : RunResult) :
    (withOut out r).timedOut = r.timedOut := by
  cases r with
  | running st o => rfl
  | finished c rr o => cases c <;> rfl
  | panicked m o => rfl

lemma withOut_out (out : List Action) (r : RunResult) :
    (withOut out r).out = out ++ r.out := by
  cases r <;> rfl

lemma step_out_clean (c u : String) (st : ConnState) (inp : StepInput) :
    disconnectCount (step c u st inp).out = 0 := by
  obtain ⟨now, ev, ok⟩ := inp
  cases ev with
  | clientFrame msg =>
    cases msg <;> cases ok <;>
      simp [step, StepResult.out, disconnectCount, Action.isDisconnect,
        process_user_socket_msg]
  | clientError err =>
    simp [step, StepResult.out, disconnectCount, Action.isDisconnect]
  | streamEnd =>
    simp [step, StepResult.out, disconnectCount]
  | chanMsg m =>
    cases ok <;>
      simp [step, StepResult.out, disconnectCount, Action.isDisconnect]
  | chanClosed =>
    simp [step, StepResult.out, disconnectCount]
  | timerTick =>
    by_cases h : CLIENT_TIMEOUT < now - st.lastHeartbeat <;>
      simp [step, h, StepResult.out, disconnectCount, Action.isDisconnect]

lemma runLoop_out_clean (c u : String) :
    ∀ (tr : List StepInput) (st : ConnState),
      disconnectCount (runLoop c u st tr).out = 0 := by
  intro tr
  induction tr with
  | nil => intro st; simp [runLoop, RunResult.out, disconnectCount]
  | cons inp rest ih =>
    intro st
    have hs := step_out_clean c u st inp
    rcases hstep : step c u st inp with ⟨st2, sout⟩ | ⟨cnd, r, st2, sout⟩ | ⟨m, sout⟩ <;>
      rw [hstep] at hs
    · rw [runLoop, hstep, withOut_out]
      have h2 := ih st2
      simp only [disconnectCount, List.countP_append, StepResult.out] at hs h2 ⊢
      omega
    · rw [runLoop, hstep]
      simpa [StepResult.out, RunResult.out] using hs
    · rw [runLoop, hstep]
      simpa [StepResult.out, RunResult.out] using hs

lemma step_cont_state (c u : String) (st : ConnState) (inp : StepInput)
    (st' : ConnState) (out : List Action)
    (h : step c u st inp = StepResult.cont st' out) :
    st' = st ∨ st' = { lastHeartbeat := inp.now } := by
  obtain ⟨now, ev, ok⟩ := inp
  cases ev with
  | clientFrame msg =>
    cases msg <;> cases ok <;>
      simp_all [step, process_user_socket_msg]
  | clientError err => simp_all [step]
  | streamEnd => simp_all [step]
  | chanMsg m => cases ok <;> simp_all [step]
  | chanClosed => simp_all [step]
  | timerTick =>
    by_cases hc : CLIENT_TIMEOUT < now - st.lastHeartbeat <;> simp_all [step]

lemma runLoop_no_timeout (c u : String) :
    ∀ (tr : List StepInput) (st : ConnState),
      liveSpaced CLIENT_TIMEOUT st.lastHeartbeat tr = true →
      (runLoop c u st tr).timedOut = false := by
  intro tr
  induction tr with
  | nil => intro st _; rfl
  | cons inp rest ih =>
    intro st h
    obtain ⟨now, ev, ok⟩ := inp
    cases ev with
    | clientFrame msg =>
      cases msg with
      | Ping p =>
        simp only [liveSpaced, Bool.and_eq_true, decide_eq_true_eq] at h
        cases ok with
        | false => rw [runLoop]; rfl
        | true =>
          rw [runLoop]
          simpa [step, withOut_timedOut] using ih { lastHeartbeat := now } h.2
      | Pong p =>
        simp only [liveSpaced, Bool.and_eq_true, decide_eq_true_eq] at h
        rw [runLoop]
        simpa [step, withOut_timedOut] using ih { lastHeartbeat := now } h.2
      | Text t =>
        simp only [liveSpaced] at h
        rw [runLoop]
        simpa [step, withOut_timedOut] using ih st h
      | Binary b =>
        simp only [liveSpaced] at h
        rw [runLoop]
        simpa [step, withOut_timedOut] using ih st h
      | Close r => rw [runLoop]; rfl
    | clientError err =>
      simp only [liveSpaced] at h
      rw [runLoop]; rfl
    | streamEnd => rw [runLoop]; rfl
    | chanMsg m =>
      simp only [liveSpaced] at h
      cases ok with
      | false => rw [runLoop]; rfl
      | true =>
        rw [runLoop]
        simpa [step, withOut_timedOut] using ih st h
    | chanClosed => rw [runLoop]; rfl
    | timerTick =>
      simp only [liveSpaced, Bool.and_eq_true, decide_eq_true_eq] at h
      have hnot : ¬ CLIENT_TIMEOUT < now - st.lastHeartbeat := Nat.not_lt.mpr (Nat.le_of_lt h.1)
      rw [runLoop]
      simpa [step, hnot, withOut_timedOut] using ih st h.2

lemma runLoop_mono (c u : String) :
    ∀ (tr : List StepInput) (st : ConnState) (t : Nat),
      st.lastHeartbeat ≤ t → timesMono t tr = true →
      ∀ (stf : ConnState) (out : List Action),
        runLoop c u st tr = RunResult.running stf out →
        st.lastHeartbeat ≤ stf.lastHeartbeat := by
  intro tr
  induction tr with
  | nil =>
    intro st t h1 _ stf out h
    rw [runLoop] at h
    cases h
    exact Nat.le_refl _
  | cons inp rest ih =>
    intro st t h1 h2 stf out h
    simp only [timesMono, Bool.and_eq_true, decide_eq_true_eq] at h2
    rcases hstep : step c u st inp with ⟨st2, sout⟩ | ⟨cnd, r, st2, sout⟩ | ⟨m, sout⟩ <;>
      simp only [runLoop, hstep] at h
    · rcases hrec : runLoop c u st2 rest with ⟨stf2, o⟩ | ⟨c2, r2, o⟩ | ⟨m2, o⟩ <;>
        rw [hrec] at h <;> simp only [withOut] at h <;> cases h
      have hst2 : st2.lastHeartbeat ≤ inp.now := by
        rcases step_cont_state c u st inp st2 sout hstep with heq | heq
        · rw [heq]; exact Nat.le_trans h1 h2.1
        · rw [heq]
      have hlow : st.lastHeartbeat ≤ st2.lastHeartbeat := by
        rcases step_cont_state c u st inp st2 sout hstep with heq | heq
        · rw [heq]
        · rw [heq]; exact Nat.le_trans h1 h2.1
      exact Nat.le_trans hlow (ih st2 inp.now hst2 h2.2 _ _ hrec)
    · cases h
    · cases h

/-! ## Claims -/

/-- C1 (counterexample): the claim says a failed outbound pong reply or
a failed fan-in text delivery is handled non-fatally (logged, that send
abandoned, the loop continues). On the concrete inputs below the code
instead panics — `session.pong(&bytes).await.unwrap()` and
`session.text(chat_msg).await.unwrap()` abort the task on a failed
send, so the iteration is not a continue. -/
theorem C1_counterexample :
    step "room" "alice" { lastHeartbeat := 0 }
        { now := 1, event := InEvent.clientFrame (AggregatedMessage.Ping [7]), sendOk := false }
      = StepResult.panicked "called Result::unwrap() on an Err value" [Action.pong [7]] ∧
    (step "room" "alice" { lastHeartbeat := 0 }
        { now := 1, event := InEvent.clientFrame (AggregatedMessage.Ping [7]),
          sendOk := false }).isCont = false ∧
    step "room" "alice" { lastHeartbeat := 0 }
        { now := 1, event := InEvent.chanMsg "hello", sendOk := false }
      = StepResult.panicked "called Result::unwrap() on an Err value" [Action.text "hello"] ∧
    (step "room" "alice" { lastHeartbeat := 0 }
        { now := 1, event := InEvent.chanMsg "hello", sendOk := false }).isCont = false :=
  ⟨rfl, rfl, rfl, rfl⟩

/-- C1 (amended): a failed outbound pong reply to a client Ping, and a
failed outbound text delivery of a fan-in message, each panic the
connection task via `unwrap` — the send is attempted and the task
aborts; the loop does not continue. Only the heartbeat ping probe on a
timer tick tolerates send failure: its result is discarded
(`let _ = session.ping(b"")`) and the loop continues. -/
theorem C1_amended_send_failure_panics (c u : String) (st : ConnState) (now : Nat) :
    (∀ p, step c u st { now := now, event := InEvent.clientFrame (AggregatedMessage.Ping p), sendOk := false }
        = StepResult.panicked "called Result::unwrap() on an Err value" [Action.pong p]) ∧
    (∀ m, step c u st { now := now, event := InEvent.chanMsg m, sendOk := false }
        = StepResult.panicked "called Result::unwrap() on an Err value" [Action.text m]) ∧
    (∀ b : Bool, now - st.lastHeartbeat ≤ CLIENT_TIMEOUT →
      step c u st { now := now, event := InEvent.timerTick, sendOk := b }
        = StepResult.cont st [Action.ping []]) := by
  refine ⟨fun p => rfl, fun m => rfl, fun b h => ?_⟩
  simp [step, Nat.not_lt.mpr h]

/-- C1 (witness): the heartbeat-probe part of the amended theorem at a
concrete input: a failed heartbeat ping at instant 3 with
`last_heartbeat = 0` continues the loop. -/
theorem C1_amended_witness :
    step "room" "alice" { lastHeartbeat := 0 }
        { now := 3, event := InEvent.timerTick, sendOk := false }
      = StepResult.cont { lastHeartbeat := 0 } [Action.ping []] :=
  (C1_amended_send_failure_panics "room" "alice" { lastHeartbeat := 0 } 3).2.2 false (by decide)

/-- C2 (counterexample): the claim says the shutdown sequence
(`Registrar.disconnect` then the transport close) runs after loop
termination by every terminal condition, `ChannelClosed` included. On
the concrete trace below, whose single event is the fan-in channel
reporting closed, the code instead hits `unreachable!` and panics: the
run ends `panicked`, the only action performed is the initial
`connect`, and no `disconnect` is ever called. -/
theorem C2_counterexample :
    start_canvas_websocket_connection "room" "alice" "Alice" "w" 0
        [{ now := 0, event := InEvent.chanClosed, sendOk := true }]
      = RunResult.panicked
          "all connection message senders were dropped; chat server may have panicked"
          [Action.connect "room" "alice" "Alice" "w"] ∧
    disconnectCount (start_canvas_websocket_connection "room" "alice" "Alice" "w" 0
        [{ now := 0, event := InEvent.chanClosed, sendOk := true }]).out = 0 :=
  ⟨rfl, rfl⟩

/-- C2 (amended): whenever the loop terminates by `break` — client
close frame, stream error, stream end, or liveness timeout —
`Registrar.disconnect(canvas_id, user_id)` is called exactly once,
followed by the close attempt on the transport with the loop's close
reason. The `ChannelClosed` case (fan-in channel permanently closed)
does not reach that shutdown sequence: the iteration panics via
`unreachable!`, and a trace beginning with it performs no disconnect at
all. -/
theorem C2_amended_shutdown_once (c u un ro : String) :
    (∀ (t0 : Nat) (inputs : List StepInput) (cond : TerminalCond)
        (r : Option CloseReason) (out : List Action),
        start_canvas_websocket_connection c u un ro t0 inputs
          = RunResult.finished cond r out →
        disconnectCount out = 1 ∧
        ∃ pre, out = pre ++ [Action.disconnect c u, Action.closeConn r]) ∧
    (∀ (st : ConnState) (now : Nat) (b : Bool),
        step c u st { now := now, event := InEvent.chanClosed, sendOk := b }
          = StepResult.panicked
              "all connection message senders were dropped; chat server may have panicked" []) ∧
    (∀ (t0 now : Nat) (b : Bool) (rest : List StepInput),
        disconnectCount (start_canvas_websocket_connection c u un ro t0
            ({ now := now, event := InEvent.chanClosed, sendOk := b } :: rest)).out = 0) := by
  refine ⟨?_, fun st now b => rfl, ?_⟩
  · intro t0 inputs cond r out h
    have hclean := runLoop_out_clean c u inputs { lastHeartbeat := t0 }
    unfold start_canvas_websocket_connection at h
    rcases hrec : runLoop c u { lastHeartbeat := t0 } inputs with ⟨stf, o⟩ | ⟨c2, r2, o⟩ | ⟨m2, o⟩ <;>
      rw [hrec] at h hclean <;> cases h
    constructor
    · simp only [disconnectCount, List.countP_cons, List.countP_append,
        RunResult.out, Action.isDisconnect] at hclean ⊢
      simp [hclean]
    · exact ⟨Action.connect c u un ro :: o, by simp⟩
  · intro t0 now b rest
    rw [start_canvas_websocket_connection, runLoop]
    simp only [step]
    simp [RunResult.out, disconnectCount, Action.isDisconnect]

/-- C2 (witness): the break-path part of the amended theorem at a
concrete input: a trace whose single event is the client stream ending
yields exactly one disconnect, followed by the close attempt. -/
theorem C2_amended_witness :
    disconnectCount [Action.connect "room" "alice" "Alice" "w",
        Action.disconnect "room" "alice", Action.closeConn none] = 1 ∧
    ∃ pre, [Action.connect "room" "alice" "Alice" "w",
        Action.disconnect "room" "alice", Action.closeConn none]
      = pre ++ [Action.disconnect "room" "alice", Action.closeConn none] :=
  (C2_amended_shutdown_once "room" "alice" "Alice" "w").1 0
    [{ now := 0, event := InEvent.streamEnd, sendOk := true }]
    TerminalCond.streamEnded none _ rfl

/-- C3: on every trace that keeps liveness confirmations strictly less
than `CLIENT_TIMEOUT` apart — each inbound client Ping/Pong and each
timer tick occurs strictly less than the timeout after the most recent
liveness-confirming frame (the connection start counting as the first)
— no timer tick observes staleness beyond the threshold, so the loop
never terminates with the liveness-timeout break. -/
theorem C3_live_spaced_never_times_out (c u : String) (t0 : Nat) (tr : List StepInput)
    (h : liveSpaced CLIENT_TIMEOUT t0 tr = true) :
    (runLoop c u { lastHeartbeat := t0 } tr).timedOut = false :=
  runLoop_no_timeout c u tr { lastHeartbeat := t0 } h

/-- C3 (witness): a concrete trace with pings/pongs 8 seconds apart
and interleaved timer ticks never times out. -/
theorem C3_witness :
    (runLoop "room" "alice" { lastHeartbeat := 0 }
        [{ now := 4, event := InEvent.clientFrame (AggregatedMessage.Ping []), sendOk := true },
         { now := 8, event := InEvent.timerTick, sendOk := true },
         { now := 12, event := InEvent.clientFrame (AggregatedMessage.Pong []), sendOk := true },
         { now := 13, event := InEvent.timerTick, sendOk := true }]).timedOut = false :=
  C3_live_spaced_never_times_out "room" "alice" 0 _ (by decide)

/-- C4: on a timer tick, if the time elapsed since `last_heartbeat`
strictly exceeds `CLIENT_TIMEOUT`, the loop breaks with the
liveness-timeout terminal condition and no close reason (`None`),
logging the timeout; otherwise the tick emits one heartbeat ping probe
and the loop continues with unchanged state. -/
theorem C4_tick_timeout_or_probe (c u : String) (st : ConnState) (now : Nat) (b : Bool) :
    (CLIENT_TIMEOUT < now - st.lastHeartbeat →
      step c u st { now := now, event := InEvent.timerTick, sendOk := b }
        = StepResult.exit TerminalCond.livenessTimeout none st
            [Action.log ("User " ++ u ++ " in " ++ c ++ " timed out")]) ∧
    (now - st.lastHeartbeat ≤ CLIENT_TIMEOUT →
      step c u st { now := now, event := InEvent.timerTick, sendOk := b }
        = StepResult.cont st [Action.ping []]) := by
  constructor
  · intro h; simp [step, h]
  · intro h; simp [step, Nat.not_lt.mpr h]

/-- C4 (witness): at instant 11 with `last_heartbeat = 0` the tick
times out with no close reason; at instant 9 it emits a ping probe. -/
theorem C4_witness :
    step "room" "alice" { lastHeartbeat := 0 }
        { now := 11, event := InEvent.timerTick, sendOk := true }
      = StepResult.exit TerminalCond.livenessTimeout none { lastHeartbeat := 0 }
          [Action.log ("User " ++ "alice" ++ " in " ++ "room" ++ " timed out")] ∧
    step "room" "alice" { lastHeartbeat := 0 }
        { now := 9, event := InEvent.timerTick, sendOk := true }
      = StepResult.cont { lastHeartbeat := 0 } [Action.ping []] :=
  ⟨(C4_tick_timeout_or_probe "room" "alice" { lastHeartbeat := 0 } 11 true).1 (by decide),
   (C4_tick_timeout_or_probe "room" "alice" { lastHeartbeat := 0 } 9 true).2 (by decide)⟩

/-- C5: an inbound client `Ping(p)` sets `last_heartbeat` to the
current instant and produces exactly one outbound pong carrying
exactly the payload `p`; an inbound client `Pong` sets
`last_heartbeat` to the current instant and produces no output at
all. -/
theorem C5_ping_gets_pong_pong_updates (c u : String) (st : ConnState) (now : Nat)
    (p q : List Nat) (b : Bool) :
    step c u st { now := now, event := InEvent.clientFrame (AggregatedMessage.Ping p), sendOk := true }
      = StepResult.cont { lastHeartbeat := now } [Action.pong p] ∧
    step c u st { now := now, event := InEvent.clientFrame (AggregatedMessage.Pong q), sendOk := b }
      = StepResult.cont { lastHeartbeat := now } [] :=
  ⟨rfl, rfl⟩

/-- C6: an inbound `Text(payload)` frame logs and calls
`Registrar.broadcast` exactly once, with the payload trimmed of leading
and trailing whitespace and the connection's canvas id and user id
passed through unchanged; `last_heartbeat` is not updated (the state
is returned unchanged). -/
theorem C6_text_broadcasts_trimmed (c u : String) (st : ConnState) (now : Nat)
    (t : String) (b : Bool) :
    step c u st { now := now, event := InEvent.clientFrame (AggregatedMessage.Text t), sendOk := b }
      = StepResult.cont st
          [Action.log ("Received message: " ++ u ++ " in " ++ c ++ ": " ++ t.trim),
           Action.broadcast c u t.trim] ∧
    List.countP Action.isBroadcast (process_user_socket_msg c u t) = 1 := by
  constructor
  · rfl
  · simp [process_user_socket_msg, Action.isBroadcast]

/-- C7: an inbound `Binary` frame produces no broadcast, no outbound
transport write, and no state mutation — the step continues with the
state unchanged and its only side effect is the log line
`unexpected binary message`. -/
theorem C7_binary_only_logs (c u : String) (st : ConnState) (now : Nat)
    (bin : List Nat) (b : Bool) :
    step c u st { now := now, event := InEvent.clientFrame (AggregatedMessage.Binary bin), sendOk := b }
      = StepResult.cont st [Action.log "unexpected binary message"] :=
  rfl

/-- C8: an inbound `Close(reason)` frame terminates the loop at once —
the remaining trace `rest` is never consumed, whatever it is — and the
shutdown sequence runs with exactly that reason:
`Registrar.disconnect(canvas_id, user_id)` is called exactly once, then
the transport close handshake is attempted with exactly `reason`. -/
theorem C8_close_runs_shutdown_with_reason (c u un ro : String) (t0 now : Nat)
    (r : Option CloseReason) (b : Bool) (rest : List StepInput) :
    start_canvas_websocket_connection c u un ro t0
        ({ now := now, event := InEvent.clientFrame (AggregatedMessage.Close r), sendOk := b } :: rest)
      = RunResult.finished TerminalCond.clientClose r
          [Action.connect c u un ro, Action.disconnect c u, Action.closeConn r] :=
  rfl

/-- C9: `last_heartbeat` is written only by the liveness-confirming
events (inbound client Ping and Pong): any continuing step on a
non-liveness event, and any breaking step, returns the state
unchanged. It is monotonically non-decreasing: every continuing step
taken at an instant not before `last_heartbeat` does not decrease it,
and over any trace with monotone timestamps the loop state's
`last_heartbeat` never drops below its initial value. -/
theorem C9_last_heartbeat_monotone_liveness_only (c u : String) :
    (∀ (st : ConnState) (inp : StepInput) (st' : ConnState) (out : List Action),
        eventLive inp.event = false →
        step c u st inp = StepResult.cont st' out → st' = st) ∧
    (∀ (st : ConnState) (inp : StepInput) (cond : TerminalCond)
        (r : Option CloseReason) (st' : ConnState) (out : List Action),
        step c u st inp = StepResult.exit cond r st' out → st' = st) ∧
    (∀ (st : ConnState) (inp : StepInput) (st' : ConnState) (out : List Action),
        st.lastHeartbeat ≤ inp.now →
        step c u st inp = StepResult.cont st' out →
        st.lastHeartbeat ≤ st'.lastHeartbeat) ∧
    (∀ (t0 : Nat) (tr : List StepInput) (stf : ConnState) (out : List Action),
        timesMono t0 tr = true →
        runLoop c u { lastHeartbeat := t0 } tr = RunResult.running stf out →
        t0 ≤ stf.lastHeartbeat) := by
  refine ⟨?_, ?_, ?_, ?_⟩
  · intro st inp st' out hlive h
    obtain ⟨now, ev, ok⟩ := inp
    cases ev with
    | clientFrame msg =>
      cases msg <;> cases ok <;> simp_all [step, eventLive, process_user_socket_msg]
    | clientError err => simp_all [step]
    | streamEnd => simp_all [step]
    | chanMsg m => cases ok <;> simp_all [step]
    | chanClosed => simp_all [step]
    | timerTick =>
      by_cases hc : CLIENT_TIMEOUT < now - st.lastHeartbeat <;> simp_all [step]
  · intro st inp cond r st' out h
    obtain ⟨now, ev, ok⟩ := inp
    cases ev with
    | clientFrame msg =>
      cases msg <;> cases ok <;> simp_all [step, process_user_socket_msg]
    | clientError err => simp_all [step]
    | streamEnd => simp_all [step]
    | chanMsg m => cases ok <;> simp_all [step]
    | chanClosed => simp_all [step]
    | timerTick =>
      by_cases hc : CLIENT_TIMEOUT < now - st.lastHeartbeat <;> simp_all [step]
  · intro st inp st' out hle h
    rcases step_cont_state c u st inp st' out h with heq | heq <;> rw [heq]
    exact hle
  · intro t0 tr stf out h1 h2
    exact runLoop_mono c u tr { lastHeartbeat := t0 } t0 (Nat.le_refl _) h1 stf out h2

/-- C9 (witness): the trace-level monotonicity part at a concrete
input: one inbound Pong at instant 3 raises `last_heartbeat` from 0 to
3, which is not below the initial value 0. -/
theorem C9_witness :
    (0 : Nat) ≤ (ConnState.mk 3).lastHeartbeat :=
  (C9_last_heartbeat_monotone_liveness_only "room" "alice").2.2.2 0
    [{ now := 3, event := InEvent.clientFrame (AggregatedMessage.Pong []), sendOk := true }]
    { lastHeartbeat := 3 } [] (by decide) rfl

/-- C10: a message received on the connection's private fan-in channel
is written verbatim — no trimming or any other transformation — to the
client transport as exactly one outbound text frame; the state
(`last_heartbeat`) is unchanged and no registrar call is made. -/
theorem C10_fanin_message_forwarded_verbatim (c u : String) (st : ConnState) (now : Nat)
    (m : String) :
    step c u st { now := now, event := InEvent.chanMsg m, sendOk := true }
      = StepResult.cont st [Action.text m] :=
  rfl

end CanvasSocket
